import Mathlib

/-!
Verification of the schemathesis CLI `run` command
(`src/schemathesis/cli/__init__.py`).

The command resolves CLI options into an engine configuration
(pruning falsy values), resolves the auth credential, selects checks
from the engine registry, invokes `runner.execute` under a scoped
stdout capture, and decides the exit status from the per-endpoint
statistics.
-/

namespace SchemathesisCli

/-- A Python value, restricted to the shapes flowing through the `run`
command: `None`, booleans, integers, strings, tuples, string-keyed
dicts, and the `HTTPDigestAuth` wrapper object.  A plain basic-auth
credential is the two-element tuple `(user, password)`, as in the
source. -/
inductive PyVal where
  | none
  | bool (b : Bool)
  | int (n : Int)
  | str (s : String)
  | tuple (elems : List PyVal)
  | dict (entries : List (String × PyVal))
  | digest (user password : String)

/-- Python truthiness for the values above: `None`, `False`, `0`, the
empty string, the empty tuple and the empty dict are falsy; an
`HTTPDigestAuth` object is always truthy. -/
def truthy : PyVal → Bool
  | PyVal.none => false
  | PyVal.bool b => b
  | PyVal.int n => n != 0
  | PyVal.str s => s != ""
  | PyVal.tuple elems => !elems.isEmpty
  | PyVal.dict entries => !entries.isEmpty
  | PyVal.digest _ _ => true

/-- Modelled from the spec: `dict_true_values` lives in
`schemathesis.utils`, which is not under `src/`; per the spec it is the
`pruneEmpty` helper that "never includes a key whose value is empty
string, empty sequence, empty mapping, `None`, or boolean false; it
always includes keys whose value is non-empty/non-false". -/
def dict_true_values (kwargs : List (String × PyVal)) : List (String × PyVal) :=
  kwargs.filter fun kv => truthy kv.2

/-- Credential resolution, from
`if auth and auth_type == "digest": auth = HTTPDigestAuth(*auth)`:
with no auth string the value stays `None`; with auth present it stays
the plain `(user, password)` tuple unless the mode is `"digest"`, in
which case it becomes the `HTTPDigestAuth` wrapper. -/
def resolveAuth (auth : Option (String × String)) (auth_type : String) : PyVal :=
  match auth with
  | Option.none => PyVal.none
  | Option.some (u, p) =>
      if auth_type == "digest" then PyVal.digest u p
      else PyVal.tuple [PyVal.str u, PyVal.str p]

/-- The `options` dict built by `run`:
`dict_true_values(api_options=dict_true_values(base_url=..., auth=...,
headers=...), loader_options=dict_true_values(endpoint=..., method=...))`. -/
def buildOptions (base_url auth headers endpoints methods : PyVal) :
    List (String × PyVal) :=
  dict_true_values
    [("api_options", PyVal.dict (dict_true_values
        [("base_url", base_url), ("auth", auth), ("headers", headers)])),
     ("loader_options", PyVal.dict (dict_true_values
        [("endpoint", endpoints), ("method", methods)]))]

/-- The optional `--base-url` CLI value as a Python value. -/
def optStr : Option String → PyVal
  | Option.none => PyVal.none
  | Option.some s => PyVal.str s

/-- The parsed `--header` values as the Python headers dict. -/
def headersVal (headers : List (String × String)) : PyVal :=
  PyVal.dict (headers.map fun kv => (kv.1, PyVal.str kv.2))

/-- A repeatable filter option (`--endpoint` / `--method`) as the
Python tuple of strings click passes to `run`. -/
def filterVal (xs : List String) : PyVal :=
  PyVal.tuple (xs.map PyVal.str)

/-- The engine options `run` builds from the raw CLI inputs: credential
resolution followed by the pruned two-level options dict. -/
def runOptions (base_url : Option String) (auth : Option (String × String))
    (auth_type : String) (headers : List (String × String))
    (endpoints methods : List String) : List (String × PyVal) :=
  buildOptions (optStr base_url) (resolveAuth auth auth_type)
    (headersVal headers) (filterVal endpoints) (filterVal methods)

/-- A value is truthy and, when it is a dict, all of its entries are
truthy as well — the shape `buildOptions` is claimed to guarantee. -/
def entryDeepTruthy (v : PyVal) : Bool :=
  truthy v && (match v with
    | PyVal.dict entries => entries.all fun kv => truthy kv.2
    | _ => true)

/-- Every value in the options dict is truthy, recursively through the
one nested level of sub-group dicts. -/
def optionsPruned (opts : List (String × PyVal)) : Bool :=
  opts.all fun kv => entryDeepTruthy kv.2

/-- A check function from the engine registry: a name (its `__name__`)
plus an opaque identity distinguishing the function itself. -/
structure Check where
  name : String
  fnId : Nat
deriving DecidableEq

/-- The vocabulary `DEFAULT_CHECKS_NAMES = tuple(check.__name__ for
check in runner.DEFAULT_CHECKS)`. -/
def DEFAULT_CHECKS_NAMES (DEFAULT_CHECKS : List Check) : List String :=
  DEFAULT_CHECKS.map Check.name

/-- The selection `selected_checks = tuple(check for check in
runner.DEFAULT_CHECKS if check.__name__ in checks)`. -/
def selectedChecks (DEFAULT_CHECKS : List Check) (checks : List String) :
    List Check :=
  DEFAULT_CHECKS.filter fun check => checks.contains check.name

/-- Character-wise ASCII lowercasing of a string. -/
def lowerStr (s : String) : String :=
  String.mk (s.data.map Char.toLower)

/-- Modelled from the spec: click's `Choice(["basic", "digest"],
case_sensitive=False)` conversion (click itself is an external
collaborator); per the spec the `--auth-type` flag is matched
case-insensitively against the fixed choice vocabulary, yielding the
canonical choice. -/
def choiceConvert (choices : List String) (value : String) : Option String :=
  choices.find? fun c => lowerStr c == lowerStr value

/-- The fixed `--auth-type` vocabulary. -/
def AUTH_TYPE_CHOICES : List String := ["basic", "digest"]

/-- The statistics produced by the engine: a mapping from endpoint
identifier to an outcome record, itself a dict of fields. -/
abbrev RunStatistics := List (String × List (String × PyVal))

/-- Python `record.get(key)`: the stored value, or `None` when the key
is absent. -/
def dictGet (d : List (String × PyVal)) (key : String) : PyVal :=
  match d.lookup key with
  | Option.some v => v
  | Option.none => PyVal.none

/-- The test `any(value.get("error") for value in
stats.data.values())`. -/
def anyErrors (stats : RunStatistics) : Bool :=
  stats.any fun kv => truthy (dictGet kv.2 "error")

/-- The observable steps of one `run` invocation: the initial echo, the
stdout-capture scope boundaries, the statistics report, the blank echo,
and the two banners. -/
inductive Event where
  | echoRunning
  | listenerEnter
  | listenerExit
  | printedReport
  | echoBlank
  | bannerFailed
  | bannerSucceeded
deriving DecidableEq

/-- One behavior of the external `runner.execute` call: the text it
writes to the captured stdout, and either the statistics it returns or
the exception it raises. -/
structure EngineBehavior where
  emitted : String
  result : Except String RunStatistics

/-- The outcome of one `run` invocation: the events in order, the exit
(`Except.ok code` for a normal exit via `click`, `Except.error e` for a
propagated engine exception), and the value bound to `hypothesis_out`
(the captured text handed to the caller), if any. -/
structure RunResult where
  events : List Event
  outcome : Except String Nat
  hypothesis_out : Option String

/-- The reporting tail of `run` after a normal engine return:
`pretty_print_stats`, the blank echo, then the failure banner with
`Exit(1)` when any record's `error` is truthy, else the success banner
with exit status 0. -/
def runAfterExecute (stats : RunStatistics) : List Event × Nat :=
  if anyErrors stats then
    ([Event.printedReport, Event.echoBlank, Event.bannerFailed], 1)
  else
    ([Event.printedReport, Event.echoBlank, Event.bannerSucceeded], 0)

/-- The `run` command from the engine call onward, with the
`with utils.stdout_listener() as get_stdout:` block.  (Modelled from
the spec for the listener itself, which is not under `src/`: the scope
is entered before the engine call and exited on every termination of
the block.)  On a normal return `hypothesis_out = get_stdout()` is
bound inside the block and reporting follows; when `runner.execute`
raises, the scope is exited and the exception propagates —
`get_stdout` is never called, so nothing is bound to
`hypothesis_out` and no report or banner is printed. -/
def runCommand (engine : EngineBehavior) : RunResult :=
  match engine.result with
  | Except.error e =>
      { events := [Event.echoRunning, Event.listenerEnter, Event.listenerExit],
        outcome := Except.error e,
        hypothesis_out := Option.none }
  | Except.ok stats =>
      let tail := runAfterExecute stats
      { events := [Event.echoRunning, Event.listenerEnter, Event.listenerExit]
          ++ tail.1,
        outcome := Except.ok tail.2,
        hypothesis_out := Option.some engine.emitted }

/-! ## Helper lemmas -/

/-- Membership in the pruned dict is membership in the input with a
truthy value. -/
theorem mem_dict_true_values {kwargs : List (String × PyVal)}
    {kv : String × PyVal} :
    kv ∈ dict_true_values kwargs ↔ kv ∈ kwargs ∧ truthy kv.2 = true := by
  simp [dict_true_values, List.mem_filter]

/-- Every value surviving the pruning is truthy. -/
theorem dict_true_values_all_truthy (kwargs : List (String × PyVal)) :
    (dict_true_values kwargs).all (fun kv => truthy kv.2) = true := by
  rw [List.all_eq_true]
  intro kv hkv
  exact (mem_dict_true_values.mp hkv).2

/-- A key whose every binding in the input is falsy does not occur in
the pruned dict. -/
theorem lookup_dict_true_values_eq_none (kwargs : List (String × PyVal))
    (key : String) (h : ∀ v, (key, v) ∈ kwargs → truthy v = false) :
    (dict_true_values kwargs).lookup key = Option.none := by
  induction kwargs with
  | nil => rfl
  | cons kv rest ih =>
      have hrest : (dict_true_values rest).lookup key = Option.none :=
        ih fun v hv => h v (List.mem_cons_of_mem kv hv)
      cases ht : truthy kv.2 with
      | true =>
          have hkv : dict_true_values (kv :: rest) =
              kv :: dict_true_values rest := by
            simp [dict_true_values, List.filter, ht]
          have hne : (key == kv.1) = false := by
            cases hbe : (key == kv.1) with
            | false => rfl
            | true =>
                have hk : key = kv.1 := eq_of_beq hbe
                have hm : (key, kv.2) ∈ kv :: rest := by
                  rw [hk]
                  exact List.mem_cons_self _ _
                have hfalse := h kv.2 hm
                rw [hfalse] at ht
                exact (Bool.false_ne_true ht).elim
          rw [hkv]
          simp [List.lookup, hne, hrest]
      | false =>
          have hkv : dict_true_values (kv :: rest) = dict_true_values rest := by
            simp [dict_true_values, List.filter, ht]
          rw [hkv, hrest]

/-! ## Claims -/

/-- C1: pruning keeps exactly the truthy-valued keys; for every
combination of raw CLI inputs the options dict built by `run` contains
only truthy values, recursively through the `api_options` and
`loader_options` sub-groups (so a fully empty sub-group is itself
absent); and with no base URL, no auth, no headers and no filters the
options dict is empty, so `runner.execute` receives only the schema
and the selected checks. -/
theorem claim_C1 :
    (∀ (kwargs : List (String × PyVal)) (k : String) (v : PyVal),
        (k, v) ∈ dict_true_values kwargs ↔ (k, v) ∈ kwargs ∧ truthy v = true) ∧
    (∀ b a h e m : PyVal, optionsPruned (buildOptions b a h e m) = true) ∧
    runOptions Option.none Option.none "basic" [] [] [] = [] := by
  refine ⟨fun kwargs k v => mem_dict_true_values, fun b a h e m => ?_, rfl⟩
  rw [optionsPruned, List.all_eq_true]
  intro kv hkv
  obtain ⟨hmem, htr⟩ := mem_dict_true_values.mp hkv
  obtain ⟨k, v⟩ := kv
  simp only [buildOptions, List.mem_cons, List.not_mem_nil, or_false,
    Prod.mk.injEq] at hmem
  rcases hmem with ⟨-, hv⟩ | ⟨-, hv⟩ <;>
    · subst hv
      simp only [entryDeepTruthy, Bool.and_eq_true]
      exact ⟨htr, dict_true_values_all_truthy _⟩

/-- Witness for C1 at a concrete input: a truthy binding survives the
pruning. -/
theorem claim_C1_witness :
    ("base_url", PyVal.str "http://127.0.0.1") ∈
      dict_true_values [("base_url", PyVal.str "http://127.0.0.1")] :=
  (claim_C1.1 [("base_url", PyVal.str "http://127.0.0.1")] "base_url"
      (PyVal.str "http://127.0.0.1")).mpr
    ⟨List.mem_singleton.mpr rfl, by decide⟩

/-- C2: on a normal engine return, the run exits with status 0 exactly
when no outcome record has a truthy `error` field, exits with status 1
after the failure banner exactly when some record does, and empty
statistics are trivially successful. -/
theorem claim_C2 (engine : EngineBehavior) (stats : RunStatistics)
    (hok : engine.result = Except.ok stats) :
    ((runCommand engine).outcome = Except.ok 0 ↔
        ∀ kv ∈ stats, truthy (dictGet kv.2 "error") = false) ∧
    ((runCommand engine).outcome = Except.ok 1 ∧
        Event.bannerFailed ∈ (runCommand engine).events ↔
      ∃ kv ∈ stats, truthy (dictGet kv.2 "error") = true) ∧
    (stats = [] → (runCommand engine).outcome = Except.ok 0) := by
  obtain ⟨emitted, result⟩ := engine
  simp only at hok
  subst hok
  cases hA : anyErrors stats with
  | true =>
      have hex : ∃ kv ∈ stats, truthy (dictGet kv.2 "error") = true := by
        simpa [anyErrors, List.any_eq_true] using hA
      refine ⟨?_, ?_, ?_⟩
      · simp only [runCommand, runAfterExecute, hA]
        constructor
        · intro h0
          exact absurd (Except.ok.inj h0) one_ne_zero
        · intro hall
          obtain ⟨kv, hkv, htr⟩ := hex
          rw [hall kv hkv] at htr
          exact (Bool.false_ne_true htr).elim
      · simp only [runCommand, runAfterExecute, hA]
        simp [hex]
      · intro hnil
        subst hnil
        simp [anyErrors] at hA
  | false =>
      have hall : ∀ kv ∈ stats, truthy (dictGet kv.2 "error") = false := by
        intro kv hkv
        cases htk : truthy (dictGet kv.2 "error") with
        | false => rfl
        | true =>
            have : anyErrors stats = true :=
              List.any_eq_true.mpr ⟨kv, hkv, htk⟩
            rw [this] at hA
            exact (Bool.true_eq_false.mp hA).elim
      refine ⟨?_, ?_, ?_⟩
      · simp only [runCommand, runAfterExecute, hA]
        exact iff_of_true rfl hall
      · simp only [runCommand, runAfterExecute, hA]
        constructor
        · intro hcontra
          exact absurd (Except.ok.inj hcontra.1) zero_ne_one
        · intro hex
          obtain ⟨kv, hkv, htr⟩ := hex
          rw [hall kv hkv] at htr
          exact (Bool.false_ne_true htr).elim
      · intro hnil
        simp [runCommand, runAfterExecute, hA]

/-- Witness for C2: empty statistics give exit status 0. -/
theorem claim_C2_witness :
    (runCommand { emitted := "", result := Except.ok [] }).outcome =
      Except.ok 0 :=
  (claim_C2 { emitted := "", result := Except.ok [] } [] rfl).2.2 rfl

/-- C3: the stdout-capture scope is exited on every exit path of the
engine invocation; when the engine raises, the exception propagates
after the teardown and neither the statistics report nor any banner is
printed. -/
theorem claim_C3 (engine : EngineBehavior) :
    Event.listenerExit ∈ (runCommand engine).events ∧
    ∀ e, engine.result = Except.error e →
      (runCommand engine).events =
          [Event.echoRunning, Event.listenerEnter, Event.listenerExit] ∧
      (runCommand engine).outcome = Except.error e ∧
      Event.printedReport ∉ (runCommand engine).events ∧
      Event.bannerFailed ∉ (runCommand engine).events ∧
      Event.bannerSucceeded ∉ (runCommand engine).events := by
  obtain ⟨emitted, result⟩ := engine
  cases result with
  | error e => simp [runCommand]
  | ok stats =>
      constructor
      · simp [runCommand]
      · intro e he
        exact absurd he (by simp)

/-- Witness for C3: a raising engine call propagates its exception. -/
theorem claim_C3_witness :
    (runCommand { emitted := "X", result := Except.error "boom" }).outcome =
      Except.error "boom" :=
  ((claim_C3 { emitted := "X", result := Except.error "boom" }).2
    "boom" rfl).2.1

/-- C4 counterexample: when the engine raises after emitting the
diagnostic text `"X"`, the `run` command does not bind that text for
the caller — `get_stdout` is never reached, so `hypothesis_out` is
never assigned. -/
theorem claim_C4_counterexample :
    ¬ ((runCommand
          { emitted := "X",
            result := Except.error "schema unreachable" }).hypothesis_out =
        Option.some "X") := by
  simp [runCommand]

/-- C4 (amended): when the engine call raises after diagnostic text
has been written to the captured stream, the failure propagates to the
caller with the capture scope torn down first, but the diagnostic text
buffered before the failure is discarded — `get_stdout` is never
called and nothing is returned or attached to the caller. -/
theorem claim_C4 (engine : EngineBehavior) (e : String)
    (h : engine.result = Except.error e) :
    (runCommand engine).outcome = Except.error e ∧
    (runCommand engine).events =
        [Event.echoRunning, Event.listenerEnter, Event.listenerExit] ∧
    (runCommand engine).hypothesis_out = Option.none := by
  obtain ⟨emitted, result⟩ := engine
  simp only at h
  subst h
  simp [runCommand]

/-- Witness for C4 at a concrete raising engine call. -/
theorem claim_C4_witness :
    (runCommand
        { emitted := "X", result := Except.error "boom2" }).hypothesis_out =
      Option.none :=
  (claim_C4 { emitted := "X", result := Except.error "boom2" }
    "boom2" rfl).2.2

/-- C5: with no auth string no credential is produced — no sub-group
of the engine options contains an `auth` key; with auth `(u, p)` and
mode `basic` the credential is the plain pair; with mode `digest` it
is the `HTTPDigestAuth` wrapper built from the same pair. -/
theorem claim_C5 :
    (∀ (base_url : Option String) (auth_type : String)
        (headers : List (String × String)) (endpoints methods : List String)
        (k : String) (es : List (String × PyVal)),
        (k, PyVal.dict es) ∈
            runOptions base_url Option.none auth_type headers
              endpoints methods →
        es.lookup "auth" = Option.none) ∧
    (∀ u p, resolveAuth (Option.some (u, p)) "basic" =
        PyVal.tuple [PyVal.str u, PyVal.str p]) ∧
    (∀ u p, resolveAuth (Option.some (u, p)) "digest" = PyVal.digest u p) := by
  refine ⟨?_, fun u p => rfl, fun u p => rfl⟩
  intro base_url auth_type headers endpoints methods k es hmem
  have hmem' := (mem_dict_true_values.mp hmem).1
  simp only [runOptions, buildOptions, resolveAuth, List.mem_cons,
    List.not_mem_nil, or_false, Prod.mk.injEq, PyVal.dict.injEq] at hmem'
  rcases hmem' with ⟨-, hes⟩ | ⟨-, hes⟩ <;> subst hes
  · apply lookup_dict_true_values_eq_none
    intro v hv
    simp only [List.mem_cons, List.not_mem_nil, or_false,
      Prod.mk.injEq] at hv
    rcases hv with ⟨hk, -⟩ | ⟨-, hv⟩ | ⟨hk, -⟩
    · exact absurd hk (by decide)
    · subst hv; rfl
    · exact absurd hk (by decide)
  · apply lookup_dict_true_values_eq_none
    intro v hv
    simp only [List.mem_cons, List.not_mem_nil, or_false,
      Prod.mk.injEq] at hv
    rcases hv with ⟨hk, -⟩ | ⟨hk, -⟩ <;> exact absurd hk (by decide)

/-- Witness for C5: with a base URL and a header but no auth, the
`api_options` sub-group carries no `auth` key. -/
theorem claim_C5_witness :
    (List.lookup "auth"
        [("base_url", PyVal.str "http://b"),
         ("headers", PyVal.dict [("H", PyVal.str "V")])]) = Option.none :=
  claim_C5.1 (Option.some "http://b") "basic" [("H", "V")] [] []
    "api_options"
    [("base_url", PyVal.str "http://b"),
     ("headers", PyVal.dict [("H", PyVal.str "V")])]
    (List.mem_cons_self _ _)

/-- C6: the auth-mode flag is matched case-insensitively — any case
variant of `digest` converts to the canonical mode, which resolves the
same `Digest(u, p)` credential as the literal `"digest"`. -/
theorem claim_C6 (raw u p : String) (hr : lowerStr raw = "digest") :
    ∃ mode, choiceConvert AUTH_TYPE_CHOICES raw = Option.some mode ∧
      resolveAuth (Option.some (u, p)) mode = PyVal.digest u p ∧
      choiceConvert AUTH_TYPE_CHOICES "digest" = Option.some mode := by
  refine ⟨"digest", ?_, rfl, by decide⟩
  simp only [choiceConvert, AUTH_TYPE_CHOICES, List.find?, hr]
  decide

/-- Witness for C6: `--auth-type DIGEST` yields the digest credential. -/
theorem claim_C6_witness :
    ∃ mode, choiceConvert AUTH_TYPE_CHOICES "DIGEST" = Option.some mode ∧
      resolveAuth (Option.some ("u", "p")) mode = PyVal.digest "u" "p" ∧
      choiceConvert AUTH_TYPE_CHOICES "digest" = Option.some mode :=
  claim_C6 "DIGEST" "u" "p" (by decide)

/-- C7: the selected checks are exactly the registry checks whose name
was requested, kept in the registry's canonical order (a sublist of
`DEFAULT_CHECKS`, not the request order); the default request of every
built-in name selects all built-in checks. -/
theorem claim_C7 (DEFAULT_CHECKS : List Check) (requested : List String) :
    List.Sublist (selectedChecks DEFAULT_CHECKS requested) DEFAULT_CHECKS ∧
    (∀ c : Check, c ∈ selectedChecks DEFAULT_CHECKS requested ↔
        c ∈ DEFAULT_CHECKS ∧ c.name ∈ requested) ∧
    selectedChecks DEFAULT_CHECKS (DEFAULT_CHECKS_NAMES DEFAULT_CHECKS) =
      DEFAULT_CHECKS := by
  refine ⟨List.filter_sublist _, ?_, ?_⟩
  · intro c
    simp [selectedChecks, List.mem_filter]
  · rw [selectedChecks, List.filter_eq_self]
    intro c hc
    simp only [List.contains, List.elem_eq_mem, decide_eq_true_eq]
    exact List.mem_map_of_mem Check.name hc

/-- Witness for C7: the default request selects the whole registry. -/
theorem claim_C7_witness :
    selectedChecks [{ name := "not_a_server_error", fnId := 0 }]
        (DEFAULT_CHECKS_NAMES [{ name := "not_a_server_error", fnId := 0 }]) =
      [{ name := "not_a_server_error", fnId := 0 }] :=
  (claim_C7 [{ name := "not_a_server_error", fnId := 0 }]
    (DEFAULT_CHECKS_NAMES [{ name := "not_a_server_error", fnId := 0 }])).2.2

/-- C9: check selection depends only on the set of requested names —
permutations and duplicates do not change it — and, since the registry
is unique by name, no check appears twice in the selection. -/
theorem claim_C9 (DEFAULT_CHECKS : List Check) (req1 req2 : List String)
    (hset : ∀ n, n ∈ req1 ↔ n ∈ req2)
    (hreg : (DEFAULT_CHECKS.map Check.name).Nodup) :
    selectedChecks DEFAULT_CHECKS req1 = selectedChecks DEFAULT_CHECKS req2 ∧
    (selectedChecks DEFAULT_CHECKS req1).Nodup := by
  constructor
  · rw [selectedChecks, selectedChecks]
    apply List.filter_congr
    intro c hc
    simp only [List.contains, List.elem_eq_mem]
    exact decide_eq_decide.mpr (hset c.name)
  · exact (List.filter_sublist _).nodup (List.Nodup.of_map _ hreg)

/-- Witness for C9: requesting `["b", "a", "a"]` selects the same
checks as requesting `["a", "b"]`, with no duplicates. -/
theorem claim_C9_witness :
    selectedChecks [{ name := "a", fnId := 0 }, { name := "b", fnId := 1 }]
        ["b", "a", "a"] =
      selectedChecks [{ name := "a", fnId := 0 }, { name := "b", fnId := 1 }]
        ["a", "b"] ∧
    (selectedChecks [{ name := "a", fnId := 0 }, { name := "b", fnId := 1 }]
        ["b", "a", "a"]).Nodup :=
  claim_C9 [{ name := "a", fnId := 0 }, { name := "b", fnId := 1 }]
    ["b", "a", "a"] ["a", "b"]
    (by intro n; simp [List.mem_cons]; tauto)
    (by decide)

/-- C8: the failure decision uses Python truthiness on the `error`
field, not strict boolean equality — any record whose `error` value is
truthy (a non-empty string, a non-zero number, ...) yields exit status
1, and a record lacking the `error` key entirely (`dict.get` returning
`None`) counts as success. -/
theorem claim_C8 :
    (∀ (stats : RunStatistics) (kv : String × List (String × PyVal)),
        kv ∈ stats → truthy (dictGet kv.2 "error") = true →
        (runCommand { emitted := "", result := Except.ok stats }).outcome =
          Except.ok 1) ∧
    (runCommand { emitted := "",
                  result :=
                    Except.ok [("e", [("error", PyVal.str "boom")])] }).outcome =
      Except.ok 1 ∧
    (runCommand { emitted := "",
                  result :=
                    Except.ok [("e", [("error", PyVal.int 2)])] }).outcome =
      Except.ok 1 ∧
    (runCommand { emitted := "",
                  result :=
                    Except.ok [("e", [("note", PyVal.bool true)])] }).outcome =
      Except.ok 0 := by
  refine ⟨?_, rfl, rfl, rfl⟩
  intro stats kv hkv htr
  have hA : anyErrors stats = true := List.any_eq_true.mpr ⟨kv, hkv, htr⟩
  simp [runCommand, runAfterExecute, hA]

/-- Witness for C8: an `error` value of `7` (truthy, not `True`)
yields the failure exit status. -/
theorem claim_C8_witness :
    (runCommand { emitted := "",
                  result :=
                    Except.ok [("e", [("error", PyVal.int 7)])] }).outcome =
      Except.ok 1 :=
  claim_C8.1 [("e", [("error", PyVal.int 7)])]
    ("e", [("error", PyVal.int 7)]) (List.mem_singleton.mpr rfl) (by decide)

/-- C10: the pass/fail decision depends only on the `error` fields of
the outcome records — two statistics maps with the same endpoint keys
and identical `error` values per record, however different their other
fields, yield the same run outcome. -/
theorem claim_C10 (s1 s2 : RunStatistics) (emitted1 emitted2 : String)
    (h : List.Forall₂
      (fun a b => a.1 = b.1 ∧ dictGet a.2 "error" = dictGet b.2 "error")
      s1 s2) :
    (runCommand { emitted := emitted1, result := Except.ok s1 }).outcome =
      (runCommand { emitted := emitted2, result := Except.ok s2 }).outcome := by
  have hA : anyErrors s1 = anyErrors s2 := by
    induction h with
    | nil => rfl
    | cons hab _ ih =>
        simp only [anyErrors, List.any_cons] at *
        rw [hab.2, ih]
  simp [runCommand, runAfterExecute, hA]

/-- Witness for C10: records that differ only in their `details` field
produce the same outcome. -/
theorem claim_C10_witness :
    (runCommand { emitted := "",
                  result := Except.ok
                    [("e", [("error", PyVal.bool true),
                            ("details", PyVal.str "d1")])] }).outcome =
      (runCommand { emitted := "",
                    result := Except.ok
                      [("e", [("error", PyVal.bool true),
                              ("details", PyVal.str "d2")])] }).outcome :=
  claim_C10 _ _ "" ""
    (List.Forall₂.cons ⟨rfl, rfl⟩ List.Forall₂.nil)

end SchemathesisCli
